import Mathlib

/-!
Shallow embedding of `softcon_finetune.py` (cl-lora repository).

The script's own logic is: a country-specific train/val splitter over a
metadata table, a band-transform pipeline (resize, SAR-channel drop,
zero-channel insertion, optional augmentations, per-channel normalization),
backbone assembly (checkpoint load), and the wiring of the Lightning module
that is trained and saved.  External libraries (pandas, numpy, torchvision,
torch, pytorch-lightning) are embedded by their documented contracts.
-/

namespace SoftconFinetune

/-- One row of the metadata parquet table (`meta`), with the columns the
splitter reads: `patch_id`, `country`, `split` (line 164 and 181-182). -/
structure MetaRow where
  patch_id : String
  country : String
  split : String
deriving DecidableEq, Repr

/-- `meta.loc[(meta.country == country) & (meta.split == "train"), "patch_id"].tolist()`
(lines 181-182): the patch identifiers of the given country's train split. -/
def available_ids (meta : List MetaRow) (country : String) : List String :=
  (meta.filter (fun r => r.country == country && r.split == "train")).map (·.patch_id)

/-- One step of the pseudo-random generator state used to model Python's
`random.Random` (a 64-bit linear congruential model of the external stdlib
generator; the generator is a pure function of its state). -/
def lcgNext (s : Nat) : Nat :=
  (6364136223846793005 * s + 1442695040888963407) % 18446744073709551616

/-- Model of `rng.sample(population, k)` (line 190), the external stdlib's
sampling without replacement: repeatedly pick a position from the remaining
population, driven by the deterministic generator state.  It returns `k`
distinct positions' elements (all of `xs` if `k` exceeds the population). -/
def sampleWithoutReplacement : Nat → Nat → List String → List String
  | _, 0, _ => []
  | _, _ + 1, [] => []
  | s, k + 1, x :: xs =>
    let i : Fin (x :: xs).length := ⟨s % (x :: xs).length, Nat.mod_lt _ (Nat.succ_pos _)⟩
    (x :: xs).get i :: sampleWithoutReplacement (lcgNext s) k ((x :: xs).eraseIdx i)

/-- `load_country_train_val(country, n_samples, seed, train_frac)`
(lines 167-208), restricted to the identifier sets it computes: filter the
metadata to the country's train split, fail if nothing is available or too
many samples are requested, otherwise sample `n_samples` identifiers with a
fresh generator seeded by `seed` (`rng = random.Random(seed)`, line 189) and
split them at `int(n_samples * train_frac)`.  The two resulting dataset
handles are external-loader instances filtered by membership in `train_ids`
resp. `val_ids`, so the id sets are the function's repository-level content.

`globalRandomState` models the state of the process-wide generators seeded at
lines 22-27; the function constructs its own `random.Random(seed)` and never
reads the global state, which is why the parameter is unused.  `train_frac`
is modelled as an exact rational; `int(...)` on a non-negative value is
`Int.floor`. -/
def load_country_train_val (meta : List MetaRow) (globalRandomState : Nat)
    (country : String) (n_samples : Nat) (seed : Nat) (train_frac : ℚ) :
    Except String (Finset String × Finset String) :=
  let available := available_ids meta country
  if available.isEmpty then
    Except.error ("No TRAIN patches found for country=" ++ country)
  else if n_samples > available.length then
    Except.error ("Requested " ++ toString n_samples ++ " samples but only " ++
      toString available.length ++ " TRAIN patches available for " ++ country)
  else
    let sampled := sampleWithoutReplacement seed n_samples available
    let split_at := (⌊(n_samples : ℚ) * train_frac⌋).toNat
    let train_ids := (sampled.take split_at).toFinset
    let val_ids := (sampled.drop split_at).toFinset
    Except.ok (train_ids, val_ids)

/-- `ALL_BANDS_S2_L2A` (lines 30-44): the canonical 13-band SoftCon ordering;
`B10` is the entry at index 10. -/
def ALL_BANDS_S2_L2A : List String :=
  ["B1", "B2", "B3", "B4", "B5", "B6", "B7", "B8", "B8A", "B9", "B10", "B11", "B12"]

/-- `S2A_MEAN` (lines 47-61): per-band normalization means; the entry `0`
sits at index 10, B10's canonical slot. -/
def S2A_MEAN : List ℚ :=
  [752.40087073, 884.29673756, 1144.16202635, 1297.47289228, 1624.90992062,
   2194.6423161, 2422.21248945, 2517.76053101, 2581.64687018, 2645.51888987,
   0, 2368.51236873, 1805.06846033]

/-- `S2A_STD` (lines 63-77): per-band normalization standard deviations; the
entry `1` sits at index 10, B10's canonical slot. -/
def S2A_STD : List ℚ :=
  [1108.02887453, 1155.15170768, 1183.6292542, 1368.11351514, 1370.265037,
   1355.55390699, 1416.51487101, 1474.78900051, 1439.3086061, 1582.28010962,
   1, 1455.52084939, 1343.48379601]

/-- A channels-first image tensor: `C` channels, `H` rows, `W` columns, with
per-index rational values (values outside the bounds are irrelevant). -/
structure Img where
  C : Nat
  H : Nat
  W : Nat
  data : Nat → Nat → Nat → ℚ

/-- `transforms.Resize((224, 224))` (lines 129 and 154), modelled as
nearest-neighbour index sampling: the external resize op keeps the channel
count and maps the spatial grid onto `th × tw`. -/
def Resize (th tw : Nat) (img : Img) : Img :=
  ⟨img.C, th, tw, fun c i j => img.data c (i * img.H / th) (j * img.W / tw)⟩

/-- `DropSARChannels` (lines 111-114): `img[2:, :, :]`, dropping the first
two (SAR) channels. -/
def DropSARChannels (img : Img) : Img :=
  ⟨img.C - 2, img.H, img.W, fun c i j => img.data (c + 2) i j⟩

/-- `ZeroInitializeB10` (lines 117-123):
`torch.cat([img[:9, :, :], zeros, img[9:, :, :]], dim=0)` — a zero-filled
channel is inserted after the first `min 9 C` channels (after the first 9
whenever the input has at least 9 channels). -/
def ZeroInitializeB10 (img : Img) : Img :=
  ⟨img.C + 1, img.H, img.W, fun c i j =>
    if c < min 9 img.C then img.data c i j
    else if c = min 9 img.C then 0
    else img.data (c - 1) i j⟩

/-- `NormalizeWithStats` (lines 89-100): `(x - mean) / std` with `mean` and
`std` reshaped to `(len, 1, 1)`.  Numpy broadcasting accepts a `(C, H, W)`
image against `(len, 1, 1)` statistics only when `C = len` (or `C = 1`, which
broadcasts the single channel); any other channel count raises a broadcast
error, modelled as `none`. -/
def NormalizeWithStats (mean std : List ℚ) (img : Img) : Option Img :=
  if img.C = mean.length then
    some ⟨img.C, img.H, img.W, fun c i j =>
      (img.data c i j - mean.getD c 0) / std.getD c 0⟩
  else if img.C = 1 then
    some ⟨mean.length, img.H, img.W, fun c i j =>
      (img.data 0 i j - mean.getD c 0) / std.getD c 0⟩
  else none

/-- The random draws consumed by one pass of the training augmentations
(lines 132-144): flip decisions, the rotation chosen by `RandomChoice`, and
the crop rectangle of `RandomResizedCrop`. -/
structure Aug where
  hflip : Bool
  vflip : Bool
  rot : Fin 4
  top : Nat
  left : Nat
  cropH : Nat
  cropW : Nat

/-- `transforms.RandomHorizontalFlip()` (line 132): mirror the columns when
the draw says so. -/
def RandomHorizontalFlip (a : Aug) (img : Img) : Img :=
  ⟨img.C, img.H, img.W, fun c i j =>
    if a.hflip then img.data c i (img.W - 1 - j) else img.data c i j⟩

/-- `transforms.RandomVerticalFlip()` (line 133): mirror the rows when the
draw says so. -/
def RandomVerticalFlip (a : Aug) (img : Img) : Img :=
  ⟨img.C, img.H, img.W, fun c i j =>
    if a.vflip then img.data c (img.H - 1 - i) j else img.data c i j⟩

/-- `transforms.RandomChoice([...])` over the four fixed rotations
(lines 134-141): one of 0, 90, 180, 270 degrees; the external op keeps
the image shape (no expansion), which for the square post-resize images is
an exact index permutation. -/
def RandomRotationChoice (a : Aug) (img : Img) : Img :=
  ⟨img.C, img.H, img.W, fun c i j =>
    if a.rot = 0 then img.data c i j
    else if a.rot = 1 then img.data c j (img.W - 1 - i)
    else if a.rot = 2 then img.data c (img.H - 1 - i) (img.W - 1 - j)
    else img.data c (img.H - 1 - j) i⟩

/-- `transforms.RandomResizedCrop(size=(224, 224), scale=(0.8, 1.0))`
(lines 142-144): crop the drawn rectangle, then resize it to 224×224. -/
def RandomResizedCrop (a : Aug) (img : Img) : Img :=
  Resize 224 224 ⟨img.C, a.cropH, a.cropW, fun c i j => img.data c (a.top + i) (a.left + j)⟩

/-- One step of a `transforms.Compose` chain, named after the callables the
script composes. -/
inductive TStep where
  | resize
  | dropSARChannels
  | zeroInitializeB10
  | randomHorizontalFlip
  | randomVerticalFlip
  | randomRotationChoice
  | randomResizedCrop
  | normalizeWithStats
deriving DecidableEq, Repr

/-- Semantics of a single pipeline step, given the augmentation draws `a`. -/
def applyStep (a : Aug) (s : TStep) (img : Img) : Option Img :=
  match s with
  | .resize => some (Resize 224 224 img)
  | .dropSARChannels => some (DropSARChannels img)
  | .zeroInitializeB10 => some (ZeroInitializeB10 img)
  | .randomHorizontalFlip => some (RandomHorizontalFlip a img)
  | .randomVerticalFlip => some (RandomVerticalFlip a img)
  | .randomRotationChoice => some (RandomRotationChoice a img)
  | .randomResizedCrop => some (RandomResizedCrop a img)
  | .normalizeWithStats => NormalizeWithStats S2A_MEAN S2A_STD img

/-- `transforms.Compose`: run the steps left to right, propagating failure. -/
def runSteps (a : Aug) (steps : List TStep) (img : Img) : Option Img :=
  steps.foldl (fun acc s => acc.bind (applyStep a s)) (some img)

/-- The ordered step list of `train_transform` (lines 127-149). -/
def train_transform_steps : List TStep :=
  [.resize, .dropSARChannels, .zeroInitializeB10, .randomHorizontalFlip,
   .randomVerticalFlip, .randomRotationChoice, .randomResizedCrop, .normalizeWithStats]

/-- The ordered step list of `val_transform` (lines 152-161). -/
def val_transform_steps : List TStep :=
  [.resize, .dropSARChannels, .zeroInitializeB10, .normalizeWithStats]

/-- The four augmentation steps present only in the training pipeline. -/
def augmentation_steps : List TStep :=
  [.randomHorizontalFlip, .randomVerticalFlip, .randomRotationChoice, .randomResizedCrop]

/-- `train_transform` (lines 127-149) as a function of the augmentation
draws and the input image. -/
def train_transform (a : Aug) (img : Img) : Option Img :=
  runSteps a train_transform_steps img

/-- `val_transform` (lines 152-161); it contains no augmentation step, the
`Aug` argument records only that the same pipeline runner is used. -/
def val_transform (a : Aug) (img : Img) : Option Img :=
  runSteps a val_transform_steps img

/-- An all-zero image of the given shape. -/
def allZeroImg (C H W : Nat) : Img := ⟨C, H, W, fun _ _ _ => 0⟩

/-- A 12-channel probe image whose channel `c` is constantly `c + 1`
(every channel nonzero), used to locate the channel `ZeroInitializeB10`
inserts. -/
def probeImg : Img := ⟨12, 1, 1, fun c _ _ => (c : ℚ) + 1⟩

/-- A fixed augmentation draw (no flips, no rotation, trivial crop). -/
def aug0 : Aug := ⟨false, false, 0, 0, 0, 224, 224⟩

/-- A torch module's parameter assignment: parameter name to value
(tensors abstracted to one rational per name). -/
structure VitModel where
  params : String → ℚ

/-- `model.state_dict()`: the module's current parameter assignment. -/
def VitModel.state_dict (m : VitModel) : String → ℚ := m.params

/-- `model.load_state_dict(sd)` (strict): the module's parameters become the
given state dict. -/
def VitModel.load_state_dict (m : VitModel) (sd : String → ℚ) : VitModel :=
  { m with params := sd }

/-- Model assembly, lines 222-240: instantiate the backbone (its fresh
random initialization is the `freshInit` argument), read the pretrained
checkpoint from disk (`ckpt_vitb14 = torch.load(...)`, its contents are the
`ckpt` argument), then run exactly the script's load step:
`model_state = model_vitb14.state_dict(); model_vitb14.load_state_dict(model_state)`. -/
def assemble_backbone (freshInit ckpt : String → ℚ) : VitModel :=
  let model_vitb14 : VitModel := ⟨freshInit⟩
  let ckpt_vitb14 := ckpt
  let model_state := model_vitb14.state_dict
  let loaded := model_vitb14.load_state_dict model_state
  let _unused := ckpt_vitb14
  loaded

/-- An `nn.Linear` head, identified by the allocation ids of its two
parameter tensors (weight, bias); distinct allocations are distinct
parameters even when their values coincide. -/
structure LinearHead where
  weightId : Nat
  biasId : Nat
deriving DecidableEq, Repr

/-- `nn.Linear(embed_dim, num_classes)`: allocate a fresh head from the
allocation counter, returning the head and the advanced counter. -/
def mkLinear (ctr : Nat) : LinearHead × Nat := (⟨ctr, ctr + 1⟩, ctr + 2)

/-- `lora_with_head = nn.Sequential(lora_model, classifier)` (line 253). -/
structure SeqModel where
  loraParamIds : List Nat
  head : LinearHead
deriving DecidableEq, Repr

/-- `SoftConLightningModule` (lines 271-281): holds `self.model` (the LoRA
model passed in) and `self.classifier`, a new `nn.Linear` created inside
`__init__` (line 275). -/
structure PLModule where
  modelParamIds : List Nat
  classifier : LinearHead
deriving DecidableEq, Repr

/-- `pl_model.state_dict()`: the parameter ids persisted for the Lightning
module — its `self.model` parameters and its own classifier's parameters. -/
def PLModule.state_dict_ids (m : PLModule) : List Nat :=
  m.modelParamIds ++ [m.classifier.weightId, m.classifier.biasId]

/-- `trainer.fit(pl_model, ...)` (line 324): training mutates parameter
values, not the set of parameter tensors; the fitted module is the module
that was passed in. -/
def trainer_fit (m : PLModule) : PLModule := m

/-- The outcome of the model-wiring part of the script (lines 248-327). -/
structure RunResult where
  lora_with_head : SeqModel
  pl_model : PLModule
  fitted : PLModule
  saved_param_ids : List Nat
deriving Repr

/-- Lines 248-327: build `classifier` (line 252) and
`lora_with_head = Sequential(lora_model, classifier)` (line 253); build
`pl_model = SoftConLightningModule(lora_model, ...)` (line 308), whose
`__init__` allocates its own fresh `nn.Linear` head (line 275); call
`trainer.fit(pl_model, ...)` (line 324) — `lora_with_head` is not the
argument; save `pl_model.state_dict()` (line 327).

`loraParamIds` are the parameter ids of `lora_model` (allocated before this
section, hence below the counter `ctr`). -/
def model_wiring (loraParamIds : List Nat) (ctr : Nat) : RunResult :=
  let (classifier, ctr1) := mkLinear ctr
  let lora_with_head : SeqModel := ⟨loraParamIds, classifier⟩
  let (plHead, _ctr2) := mkLinear ctr1
  let pl_model : PLModule := ⟨loraParamIds, plHead⟩
  let fitted := trainer_fit pl_model
  let saved := fitted.state_dict_ids
  ⟨lora_with_head, pl_model, fitted, saved⟩

/-- Equality of `Except` results is decidable when both components are. -/
instance {ε α : Type} [DecidableEq ε] [DecidableEq α] : DecidableEq (Except ε α) := fun
  | .error a, .error b =>
    if h : a = b then .isTrue (by rw [h])
    else .isFalse (by intro hc; injection hc; contradiction)
  | .error _, .ok _ => .isFalse (fun hc => Except.noConfusion hc)
  | .ok _, .error _ => .isFalse (fun hc => Except.noConfusion hc)
  | .ok a, .ok b =>
    if h : a = b then .isTrue (by rw [h])
    else .isFalse (by intro hc; injection hc; contradiction)

/-- A three-row metadata table used to instantiate the splitter theorems on
concrete inputs. -/
def sampleMeta : List MetaRow :=
  [⟨"a", "X", "train"⟩, ⟨"b", "X", "train"⟩, ⟨"c", "X", "train"⟩]

/-! ## Lemmas about the sampling model -/

theorem length_sampleWithoutReplacement :
    ∀ (k s : Nat) (xs : List String),
      (sampleWithoutReplacement s k xs).length = min k xs.length
  | 0, _, _ => by simp [sampleWithoutReplacement]
  | _ + 1, _, [] => by simp [sampleWithoutReplacement]
  | k + 1, s, x :: xs => by
    simp only [sampleWithoutReplacement, List.length_cons,
      length_sampleWithoutReplacement k]
    rw [List.length_eraseIdx]
    have h : s % (xs.length + 1) < xs.length + 1 := Nat.mod_lt _ (Nat.succ_pos _)
    simp only [List.length_cons, if_pos h, Nat.add_sub_cancel]
    omega

theorem perm_get_cons_eraseIdx :
    ∀ (l : List String) (i : Nat) (h : i < l.length),
      l.Perm (l.get ⟨i, h⟩ :: l.eraseIdx i)
  | x :: xs, 0, _ => by simp [List.eraseIdx]
  | x :: xs, i + 1, h => by
    have h' : i < xs.length := Nat.lt_of_succ_lt_succ h
    have ih := perm_get_cons_eraseIdx xs i h'
    simpa [List.eraseIdx] using (ih.cons x).trans (List.Perm.swap _ _ _)

theorem subperm_sampleWithoutReplacement :
    ∀ (k s : Nat) (xs : List String),
      (sampleWithoutReplacement s k xs).Subperm xs
  | 0, _, _ => List.nil_subperm
  | _ + 1, _, [] => List.nil_subperm
  | k + 1, s, x :: xs => by
    simp only [sampleWithoutReplacement]
    set l := x :: xs with hl
    set i : Fin l.length := ⟨s % l.length, Nat.mod_lt _ (Nat.succ_pos _)⟩ with hi
    have ih := subperm_sampleWithoutReplacement k (lcgNext s) (l.eraseIdx i)
    have hcons : (l.get i :: sampleWithoutReplacement (lcgNext s) k (l.eraseIdx i)).Subperm
        (l.get i :: l.eraseIdx i) := (List.subperm_cons _).mpr ih
    exact hcons.trans (perm_get_cons_eraseIdx l i i.isLt).symm.subperm

theorem nodup_sampleWithoutReplacement (k s : Nat) (xs : List String)
    (h : xs.Nodup) : (sampleWithoutReplacement s k xs).Nodup := by
  obtain ⟨w, hw1, hw2⟩ := subperm_sampleWithoutReplacement k s xs
  exact hw1.nodup_iff.mp (h.sublist hw2)

/-! ## Claim theorems: the splitter -/

/-- C1: for every valid call of `load_country_train_val` (one that returns
`Except.ok`, i.e. `n_samples` does not exceed the country's available
train-split patches) on metadata whose available identifiers are duplicate
free, the returned `train_ids` and `val_ids` are disjoint,
`|train_ids| = ⌊n_samples * train_frac⌋`, `|train_ids| + |val_ids| =
n_samples`, and both are subsets of the country's available train-split
patch identifiers. -/
theorem load_country_train_val_split_spec
    (meta : List MetaRow) (g : Nat) (country : String) (n_samples seed : Nat)
    (train_frac : ℚ) (t v : Finset String)
    (h_nodup : (available_ids meta country).Nodup)
    (h_frac1 : train_frac ≤ 1)
    (h_ok : load_country_train_val meta g country n_samples seed train_frac =
      Except.ok (t, v)) :
    Disjoint t v ∧
    t.card = (⌊(n_samples : ℚ) * train_frac⌋).toNat ∧
    t.card + v.card = n_samples ∧
    t ⊆ (available_ids meta country).toFinset ∧
    v ⊆ (available_ids meta country).toFinset := by
  simp only [load_country_train_val] at h_ok
  split_ifs at h_ok with h1 h2
  rw [Except.ok.injEq, Prod.mk.injEq] at h_ok
  obtain ⟨ht, hv⟩ := h_ok
  set A := available_ids meta country with hA
  set sampled := sampleWithoutReplacement seed n_samples A with hsampled
  set s := (⌊(n_samples : ℚ) * train_frac⌋).toNat with hs
  have hlen : sampled.length = n_samples := by
    rw [hsampled, length_sampleWithoutReplacement]
    exact Nat.min_eq_left (Nat.le_of_not_lt h2)
  have hnd : sampled.Nodup := nodup_sampleWithoutReplacement _ _ _ h_nodup
  have hsubset : sampled ⊆ A := (subperm_sampleWithoutReplacement _ _ _).subset
  have hsn : s ≤ n_samples := by
    have hfl : (⌊(n_samples : ℚ) * train_frac⌋) ≤ ⌊((n_samples : ℕ) : ℚ)⌋ :=
      Int.floor_le_floor (by nlinarith [Nat.cast_nonneg (α := ℚ) n_samples])
    rw [Int.floor_natCast] at hfl
    rw [hs]
    omega
  have hnd_app : sampled.Nodup := hnd
  rw [← List.take_append_drop s sampled, List.nodup_append] at hnd_app
  have hdisj : Disjoint t v := by
    rw [← ht, ← hv, List.disjoint_toFinset_iff_disjoint]
    exact hnd_app.2.2
  have hcard_t : t.card = s := by
    rw [← ht, List.toFinset_card_of_nodup (hnd.sublist (List.take_sublist s sampled)),
      List.length_take, hlen]
    exact Nat.min_eq_left hsn
  have hcard_v : v.card = n_samples - s := by
    rw [← hv, List.toFinset_card_of_nodup (hnd.sublist (List.drop_sublist s sampled)),
      List.length_drop, hlen]
  refine ⟨hdisj, hcard_t, ?_, ?_, ?_⟩
  · rw [hcard_t, hcard_v]; omega
  · rw [← ht]
    intro x hx
    rw [List.mem_toFinset] at hx ⊢
    exact hsubset (List.take_subset s sampled hx)
  · rw [← hv]
    intro x hx
    rw [List.mem_toFinset] at hx ⊢
    exact hsubset (List.drop_subset s sampled hx)

/-- Witness for C1: the concrete call on `sampleMeta` with country `"X"`,
`n_samples = 2`, `seed = 0`, `train_frac = 4/5` satisfies the hypotheses and
the conclusion (`train_ids = a, val_ids = c`). -/
theorem load_country_train_val_split_spec_witness :
    (available_ids sampleMeta "X").Nodup ∧
    (4 : ℚ) / 5 ≤ 1 ∧
    load_country_train_val sampleMeta 0 "X" 2 0 (4 / 5) =
      Except.ok ({"a"}, {"c"}) ∧
    (Disjoint ({"a"} : Finset String) {"c"} ∧
      ({"a"} : Finset String).card = (⌊(2 : ℚ) * (4 / 5)⌋).toNat ∧
      ({"a"} : Finset String).card + ({"c"} : Finset String).card = 2 ∧
      ({"a"} : Finset String) ⊆ (available_ids sampleMeta "X").toFinset ∧
      ({"c"} : Finset String) ⊆ (available_ids sampleMeta "X").toFinset) := by
  have hav : available_ids sampleMeta "X" = ["a", "b", "c"] := by decide
  have hswr : sampleWithoutReplacement 0 2 ["a", "b", "c"] = ["a", "c"] := by decide
  have hfl : (⌊(2 : ℚ) * (4 / 5)⌋) = 1 := by norm_num [Int.floor_eq_iff]
  have h_ok : load_country_train_val sampleMeta 0 "X" 2 0 (4 / 5) =
      Except.ok ({"a"}, {"c"}) := by
    simp only [load_country_train_val, hav, hswr, Nat.cast_ofNat, hfl]
    norm_num
  exact ⟨by decide, by norm_num, h_ok,
    load_country_train_val_split_spec sampleMeta 0 "X" 2 0 (4 / 5) {"a"} {"c"}
      (by decide) (by norm_num) h_ok⟩

/-- C6: whenever the country has no train-split patches, or `n_samples`
exceeds the available count, `load_country_train_val` fails with an error
message and produces no identifier sets. -/
theorem load_country_train_val_error_spec
    (meta : List MetaRow) (g : Nat) (country : String) (n_samples seed : Nat)
    (train_frac : ℚ)
    (h : available_ids meta country = [] ∨
      (available_ids meta country).length < n_samples) :
    (∃ msg, load_country_train_val meta g country n_samples seed train_frac =
      Except.error msg) ∧
    ∀ t v, load_country_train_val meta g country n_samples seed train_frac ≠
      Except.ok (t, v) := by
  have hmain : ∃ msg,
      load_country_train_val meta g country n_samples seed train_frac =
        Except.error msg := by
    simp only [load_country_train_val]
    rcases h with h | h
    · rw [if_pos (by simp [h])]
      exact ⟨_, rfl⟩
    · by_cases hA : (available_ids meta country).isEmpty
      · rw [if_pos hA]
        exact ⟨_, rfl⟩
      · rw [if_neg hA, if_pos h]
        exact ⟨_, rfl⟩
  refine ⟨hmain, ?_⟩
  obtain ⟨msg, hmsg⟩ := hmain
  intro t v hok
  rw [hmsg] at hok
  exact Except.noConfusion hok

/-- Witness for C6: the concrete call on `sampleMeta` with country `"Y"`
(no train patches) fails with an error and is never `Except.ok`. -/
theorem load_country_train_val_error_spec_witness :
    (available_ids sampleMeta "Y" = [] ∨
      (available_ids sampleMeta "Y").length < 1) ∧
    ((∃ msg, load_country_train_val sampleMeta 0 "Y" 1 0 (4 / 5) =
        Except.error msg) ∧
      ∀ t v, load_country_train_val sampleMeta 0 "Y" 1 0 (4 / 5) ≠
        Except.ok (t, v)) :=
  ⟨Or.inl (by decide),
    load_country_train_val_error_spec sampleMeta 0 "Y" 1 0 (4 / 5)
      (Or.inl (by decide))⟩

/-- C7: the splitter's result depends only on its arguments; in particular
it is independent of the state of the process-wide random generators
(`globalRandomState`), because line 189 constructs a fresh `random.Random(seed)`.
Two invocations with identical `(country, n_samples, seed, train_frac)`
therefore produce identical `(train_ids, val_ids)`. -/
theorem load_country_train_val_deterministic
    (meta : List MetaRow) (g₁ g₂ : Nat) (country : String)
    (n_samples seed : Nat) (train_frac : ℚ) :
    load_country_train_val meta g₁ country n_samples seed train_frac =
      load_country_train_val meta g₂ country n_samples seed train_frac := rfl

/-! ## Claim theorems: the band-transform pipeline -/

/-- C2 fails on the code: `ZeroInitializeB10` inserts the zero-filled
channel at index 9 (B9's canonical slot, mean 2645.51888987), pushing the
original channel 9 to index 10 — which is B10's canonical slot, the index
whose constants are mean 0 and std 1.  On the 12-channel probe image (every
channel nonzero) the zero channel lands at index 9, while index 10 carries
the probe's old channel 9. -/
theorem ZeroInitializeB10_inserts_at_index_9 :
    (ZeroInitializeB10 probeImg).data 9 0 0 = 0 ∧
    (ZeroInitializeB10 probeImg).data 10 0 0 = 10 ∧
    ALL_BANDS_S2_L2A.getD 9 "" = "B9" ∧
    ALL_BANDS_S2_L2A.getD 10 "" = "B10" ∧
    S2A_MEAN.getD 10 0 = 0 ∧
    S2A_STD.getD 10 0 = 1 ∧
    S2A_MEAN.getD 9 0 ≠ 0 := by
  refine ⟨rfl, ?_, rfl, rfl, rfl, rfl, ?_⟩
  · show ((9 : ℕ) : ℚ) + 1 = 10
    norm_num
  · show (2645.51888987 : ℚ) ≠ 0
    norm_num

/-- C9: the validation pipeline reads none of the random draws — its output
is a function of the input image alone, so two applications to the same
input are identical. -/
theorem val_transform_deterministic (a₁ a₂ : Aug) (img : Img) :
    val_transform a₁ img = val_transform a₂ img := rfl

/-- C8: the validation step list is exactly the training step list with the
four augmentation steps removed; the shared steps (resize, SAR drop, zero
insertion, normalization) appear in the same order, and running the training
pipeline without its augmentation steps is running the validation pipeline. -/
theorem val_transform_is_train_without_augmentation :
    val_transform_steps =
      train_transform_steps.filter (fun s => !augmentation_steps.contains s) ∧
    train_transform_steps =
      [TStep.resize, TStep.dropSARChannels, TStep.zeroInitializeB10] ++
        augmentation_steps ++ [TStep.normalizeWithStats] ∧
    ∀ (a : Aug) (img : Img),
      val_transform a img =
        runSteps a (train_transform_steps.filter
          (fun s => !augmentation_steps.contains s)) img :=
  ⟨by decide, by decide, fun _ _ => rfl⟩

/-- C4 fails as stated: on a 15-channel input the pipeline does not produce
a 13-channel output — after dropping 2 channels and inserting 1 the tensor
has 14 channels, and the per-channel normalization against the 13-entry
statistics fails (numpy broadcast error), so both pipelines abort. -/
theorem fifteen_channel_input_fails :
    (allZeroImg 15 32 32).C = 15 ∧
    val_transform aug0 (allZeroImg 15 32 32) = none ∧
    train_transform aug0 (allZeroImg 15 32 32) = none :=
  ⟨rfl, rfl, rfl⟩

/-- C4 amended: for every input with exactly 14 channels (2 SAR + 12
optical, the shape the script loads) and any spatial size, both the training
and the validation pipeline output a tensor with exactly 13 channels. -/
theorem pipeline_output_has_13_channels (a : Aug) (img : Img)
    (h : img.C = 14) :
    (∃ out, train_transform a img = some out ∧ out.C = 13) ∧
    (∃ out, val_transform a img = some out ∧ out.C = 13) := by
  obtain ⟨C, H, W, d⟩ := img
  simp only at h
  subst h
  exact ⟨⟨_, rfl, rfl⟩, ⟨_, rfl, rfl⟩⟩

/-- Witness for C4 (amended): the concrete all-zero 14-channel image. -/
theorem pipeline_output_has_13_channels_witness :
    (allZeroImg 14 32 32).C = 14 ∧
    ((∃ out, train_transform aug0 (allZeroImg 14 32 32) = some out ∧ out.C = 13) ∧
      (∃ out, val_transform aug0 (allZeroImg 14 32 32) = some out ∧ out.C = 13)) :=
  ⟨rfl, pipeline_output_has_13_channels aug0 (allZeroImg 14 32 32) rfl⟩

/-- C3 fails as stated: on the all-zero 15-channel input the validation
pipeline produces no (13,224,224) tensor at all — it aborts on the
normalization's shape mismatch (14 channels against 13 statistics). -/
theorem all_zero_15_channel_counterexample :
    (allZeroImg 15 100 100).C = 15 ∧
    val_transform aug0 (allZeroImg 15 100 100) = none :=
  ⟨rfl, rfl⟩

/-- C3 amended: for an all-zero input of shape (14, H, W) (2 SAR + 12
optical channels, the shape the script loads), the validation pipeline
produces a (13,224,224) tensor whose every channel `c` equals the constant
`(0 - mean_c) / std_c` — including the zero-inserted channel, which sits at
index 9 and is therefore `(0 - 2645.51888987) / 1582.28010962 ≠ 0`; the
channel that equals exactly 0 after normalization is channel 10. -/
theorem val_transform_all_zero (a : Aug) (H W : Nat) :
    ∃ out, val_transform a (allZeroImg 14 H W) = some out ∧
      out.C = 13 ∧ out.H = 224 ∧ out.W = 224 ∧
      (∀ c, c < 13 → ∀ i j,
        out.data c i j = (0 - S2A_MEAN.getD c 0) / S2A_STD.getD c 0) ∧
      (∀ i j, out.data 10 i j = 0) ∧
      out.data 9 0 0 = (0 - 2645.51888987) / 1582.28010962 ∧
      out.data 9 0 0 ≠ 0 := by
  refine ⟨_, rfl, rfl, rfl, rfl, ?_, ?_, ?_, ?_⟩
  · intro c _ i j
    show ((if c < min 9 12 then (0 : ℚ) else if c = min 9 12 then 0 else 0) -
      S2A_MEAN.getD c 0) / S2A_STD.getD c 0 = _
    split_ifs <;> rfl
  · intro i j
    show ((if (10 : ℕ) < min 9 12 then (0 : ℚ) else if (10 : ℕ) = min 9 12 then 0 else 0) -
      S2A_MEAN.getD 10 0) / S2A_STD.getD 10 0 = 0
    norm_num [S2A_MEAN, S2A_STD]
  · show ((if (9 : ℕ) < min 9 12 then (0 : ℚ) else if (9 : ℕ) = min 9 12 then 0 else 0) -
      S2A_MEAN.getD 9 0) / S2A_STD.getD 9 0 = _
    norm_num [S2A_MEAN, S2A_STD]
  · show ((if (9 : ℕ) < min 9 12 then (0 : ℚ) else if (9 : ℕ) = min 9 12 then 0 else 0) -
      S2A_MEAN.getD 9 0) / S2A_STD.getD 9 0 ≠ 0
    norm_num [S2A_MEAN, S2A_STD]

/-! ## Claim theorems: model assembly and training wiring -/

/-- C5: the load step reloads the backbone's own freshly-initialized state
into itself — after `assemble_backbone` the parameters equal the fresh
initialization, and the checkpoint read from disk has no effect on the
assembled model. -/
theorem assemble_backbone_ignores_checkpoint
    (freshInit ckpt ckpt' : String → ℚ) :
    (assemble_backbone freshInit ckpt).params = freshInit ∧
    assemble_backbone freshInit ckpt = assemble_backbone freshInit ckpt' :=
  ⟨rfl, rfl⟩

/-- C10: the module passed to `trainer.fit` and whose state is saved is
`pl_model` — the Lightning module wrapping `lora_model` plus its own fresh
linear head allocated inside `__init__`; the separately assembled
`lora_with_head` Sequential is not the trained module, and neither of its
classifier's parameters appears in the saved state. -/
theorem model_wiring_trains_and_saves_pl_module
    (loraParamIds : List Nat) (ctr : Nat)
    (h : ∀ p ∈ loraParamIds, p < ctr) :
    (model_wiring loraParamIds ctr).fitted = (model_wiring loraParamIds ctr).pl_model ∧
    (model_wiring loraParamIds ctr).pl_model.classifier = ⟨ctr + 2, ctr + 3⟩ ∧
    (model_wiring loraParamIds ctr).saved_param_ids =
      loraParamIds ++ [ctr + 2, ctr + 3] ∧
    (model_wiring loraParamIds ctr).lora_with_head.head.weightId ∉
      (model_wiring loraParamIds ctr).saved_param_ids ∧
    (model_wiring loraParamIds ctr).lora_with_head.head.biasId ∉
      (model_wiring loraParamIds ctr).saved_param_ids ∧
    (model_wiring loraParamIds ctr).pl_model.classifier ≠
      (model_wiring loraParamIds ctr).lora_with_head.head := by
  refine ⟨rfl, rfl, rfl, ?_, ?_, ?_⟩
  · intro hmem
    have hmem' : ctr ∈ loraParamIds ++ [ctr + 2, ctr + 3] := hmem
    rcases List.mem_append.mp hmem' with h1 | h2
    · exact absurd (h _ h1) (lt_irrefl ctr)
    · simp only [List.mem_cons, List.not_mem_nil, or_false] at h2
      omega
  · intro hmem
    have hmem' : ctr + 1 ∈ loraParamIds ++ [ctr + 2, ctr + 3] := hmem
    rcases List.mem_append.mp hmem' with h1 | h2
    · have := h _ h1
      omega
    · simp only [List.mem_cons, List.not_mem_nil, or_false] at h2
      omega
  · intro heq
    have heq' : (⟨ctr + 2, ctr + 3⟩ : LinearHead) = ⟨ctr, ctr + 1⟩ := heq
    rw [LinearHead.mk.injEq] at heq'
    omega

/-- Witness for C10: the wiring applied with `lora_model` parameters
`[0, 1]` and allocation counter `2`. -/
theorem model_wiring_witness :
    (∀ p ∈ ([0, 1] : List Nat), p < 2) ∧
    ((model_wiring [0, 1] 2).fitted = (model_wiring [0, 1] 2).pl_model ∧
      (model_wiring [0, 1] 2).pl_model.classifier = ⟨4, 5⟩ ∧
      (model_wiring [0, 1] 2).saved_param_ids = [0, 1] ++ [4, 5] ∧
      (model_wiring [0, 1] 2).lora_with_head.head.weightId ∉
        (model_wiring [0, 1] 2).saved_param_ids ∧
      (model_wiring [0, 1] 2).lora_with_head.head.biasId ∉
        (model_wiring [0, 1] 2).saved_param_ids ∧
      (model_wiring [0, 1] 2).pl_model.classifier ≠
        (model_wiring [0, 1] 2).lora_with_head.head) :=
  ⟨by decide, model_wiring_trains_and_saves_pl_module [0, 1] 2 (by decide)⟩

end SoftconFinetune
